import Mathlib

/-!
Verification of the RabbitMQ agent check (`rabbitmq/check.py`).

The development shallowly embeds the check: JSON values are an inductive
type, the HTTP layer is a function from URLs to `Except`-wrapped JSON
bodies, and each side effect the check performs (metric gauges, log
lines, events, service checks) is recorded in an explicit trace.  Python
exceptions are modelled with `Except` / explicit exception fields;
uncaught exceptions abort the current computation and are surfaced in
the result.  Machine floats appearing in the source (`float(...)` values
and the `0.9` alert threshold) are modelled as exact rationals; comments
at the relevant definitions record why the two agree on the inputs at
stake.
-/

namespace RMQ

/-- A JSON value as decoded by `requests`' `r.json()` (Python `None`,
`bool`, numbers, `str`, `list`, `dict`). -/
inductive Json where
  | null
  | bool (b : Bool)
  | num (q : ℚ)
  | str (s : String)
  | arr (xs : List Json)
  | obj (fields : List (String × Json))

/-- A record from the management API: one queue or one node, i.e. a JSON
object's field list (`data_line` in the source). -/
abbrev Rec := List (String × Json)

mutual

/-- Approximation of Python's `str()` as used by `'%s' % value`
formatting in the source.  `None` renders as `"None"`, strings render as
themselves; container rendering is structural (the exact punctuation of
Python's `repr` for containers is cosmetic and not relied upon by any
theorem). -/
def pyStr : Json → String
  | .null => "None"
  | .bool b => if b then "True" else "False"
  | .num q => toString q
  | .str s => s
  | .arr xs => "[" ++ pyStrList xs ++ "]"
  | .obj fs => "\x7b" ++ pyStrFields fs ++ "\x7d"

/-- Element rendering for `pyStr` on lists. -/
def pyStrList : List Json → String
  | [] => ""
  | [x] => pyStr x
  | x :: rest => pyStr x ++ ", " ++ pyStrList rest

/-- Field rendering for `pyStr` on objects. -/
def pyStrFields : List (String × Json) → String
  | [] => ""
  | [(k, v)] => k ++ ": " ++ pyStr v
  | (k, v) :: rest => k ++ ": " ++ pyStr v ++ ", " ++ pyStrFields rest

end

/-- Kinds of Python runtime exceptions the embedded code can raise. -/
inductive PyErr where
  | valueError
  | typeError
  | attributeError
  | keyError
deriving DecidableEq

/-- The exceptions that can escape one step of the check:
`RabbitMQException` (raised by `_get_data` on transport/parse failures),
the plain `Exception` raised for the explicit-filter configuration
error, or an uncaught Python runtime error. -/
inductive PyExc where
  | rabbitExc (msg : String)
  | configExc (msg : String)
  | pyErr (e : PyErr)
deriving DecidableEq

/-- Service-check outcome (`AgentCheck.OK` / `AgentCheck.WARNING` /
`AgentCheck.CRITICAL`). -/
inductive Status where
  | OK
  | WARNING
  | CRITICAL
deriving DecidableEq

/-- An event posted to the stream by `alert` (the `timestamp` field,
taken from the wall clock in the source, is not modelled). -/
structure Event where
  event_type : String
  msg_title : String
  msg_text : String
  alert_type : String
  source_type_name : String
  host : String
  tags : List String
  event_object : String
deriving DecidableEq

/-- One observable side effect of the check, in order of occurrence. -/
inductive Effect where
  | fetch (url : String)
  | gauge (name : String) (value : ℚ) (tags : List String)
  | debugLog (msg : String)
  | errorLog (msg : String)
  | warning (msg : String)
  | alertCall (base_url object_type : String) (size max_detailed : ℕ)
  | event (e : Event)
  | serviceCheck (name : String) (status : Status) (tags : List String) (message : String)
deriving DecidableEq

/-- `QUEUE_TYPE = 'queues'`. -/
def QUEUE_TYPE : String := "queues"

/-- `NODE_TYPE = 'nodes'`. -/
def NODE_TYPE : String := "nodes"

/-- `EVENT_TYPE = SOURCE_TYPE_NAME = 'rabbitmq'`. -/
def EVENT_TYPE : String := "rabbitmq"

/-- The value transforms appearing in the attribute tables: `float` and
`len`. -/
inductive Op where
  | opFloat
  | opLen
deriving DecidableEq

/-- Decimal literal accepted by Python's `float(str)`: optional sign,
digits, optional fractional part.  (Python also accepts exotic forms
such as exponents and `inf`; no theorem depends on those, only on the
existence of strings that do or do not parse.) -/
def parseFloat? (s : String) : Option ℚ :=
  let cs := s.toList
  let signAndRest : ℚ × List Char :=
    match cs with
    | '-' :: rest => (-1, rest)
    | '+' :: rest => (1, rest)
    | _ => (1, cs)
  let sign := signAndRest.1
  let body := signAndRest.2
  let intPart := body.takeWhile Char.isDigit
  let rest := body.dropWhile Char.isDigit
  let digitsToNat : List Char → ℕ := fun ds => ds.foldl (fun a c => a * 10 + (c.toNat - 48)) 0
  match rest with
  | [] =>
    if intPart.isEmpty then none
    else some (sign * (digitsToNat intPart : ℚ))
  | '.' :: frac =>
    if frac.all Char.isDigit && !(intPart.isEmpty && frac.isEmpty) then
      some (sign * ((digitsToNat intPart : ℚ) + (digitsToNat frac : ℚ) / (10 ^ frac.length)))
    else none
  | _ => none

/-- Applying an attribute table's operation to a JSON value, as Python
does: `float` succeeds on numbers/bools and on numeric strings, raises
`ValueError` on non-numeric strings, and raises `TypeError` on `None`,
lists and dicts; `len` succeeds on strings, lists and dicts and raises
`TypeError` otherwise. -/
def applyOp : Op → Json → Except PyErr ℚ
  | .opFloat, .num q => .ok q
  | .opFloat, .bool b => .ok (if b then 1 else 0)
  | .opFloat, .str s =>
    match parseFloat? s with
    | some q => .ok q
    | none => .error .valueError
  | .opFloat, _ => .error .typeError
  | .opLen, .str s => .ok (s.length : ℚ)
  | .opLen, .arr xs => .ok (xs.length : ℚ)
  | .opLen, .obj fs => .ok (fs.length : ℚ)
  | .opLen, _ => .error .typeError

/-- `QUEUE_ATTRIBUTES`: (path, name, operation) triples. -/
def QUEUE_ATTRIBUTES : List (String × String × Op) :=
  [("active_consumers", "active_consumers", .opFloat),
   ("consumers", "consumers", .opFloat),
   ("consumer_utilisation", "consumer_utilisation", .opFloat),
   ("memory", "memory", .opFloat),
   ("messages", "messages", .opFloat),
   ("messages_details/rate", "messages.rate", .opFloat),
   ("messages_ready", "messages_ready", .opFloat),
   ("messages_ready_details/rate", "messages_ready.rate", .opFloat),
   ("messages_unacknowledged", "messages_unacknowledged", .opFloat),
   ("messages_unacknowledged_details/rate", "messages_unacknowledged.rate", .opFloat),
   ("message_stats/ack", "messages.ack.count", .opFloat),
   ("message_stats/ack_details/rate", "messages.ack.rate", .opFloat),
   ("message_stats/deliver", "messages.deliver.count", .opFloat),
   ("message_stats/deliver_details/rate", "messages.deliver.rate", .opFloat),
   ("message_stats/deliver_get", "messages.deliver_get.count", .opFloat),
   ("message_stats/deliver_get_details/rate", "messages.deliver_get.rate", .opFloat),
   ("message_stats/publish", "messages.publish.count", .opFloat),
   ("message_stats/publish_details/rate", "messages.publish.rate", .opFloat),
   ("message_stats/redeliver", "messages.redeliver.count", .opFloat),
   ("message_stats/redeliver_details/rate", "messages.redeliver.rate", .opFloat)]

/-- `NODE_ATTRIBUTES`. -/
def NODE_ATTRIBUTES : List (String × String × Op) :=
  [("fd_used", "fd_used", .opFloat),
   ("mem_used", "mem_used", .opFloat),
   ("run_queue", "run_queue", .opFloat),
   ("sockets_used", "sockets_used", .opFloat),
   ("partitions", "partitions", .opLen)]

/-- The `ATTRIBUTES` dict, keyed by the two object types. -/
def ATTRIBUTES (object_type : String) : List (String × String × Op) :=
  if object_type = QUEUE_TYPE then QUEUE_ATTRIBUTES else NODE_ATTRIBUTES

/-- The `TAGS_MAP` dict (source field ↦ tag key).  The source is a
Python 2 dict whose iteration order is unspecified; the literal's
textual order is used here — no theorem depends on tag order. -/
def TAGS_MAP (object_type : String) : List (String × String) :=
  if object_type = QUEUE_TYPE then
    [("node", "node"), ("name", "queue"), ("vhost", "vhost"),
     ("policy", "policy"), ("queue_family", "queue_family")]
  else [("name", "node")]

/-- The `METRIC_SUFFIX` dict. -/
def METRIC_SUFFIX (object_type : String) : String :=
  if object_type = QUEUE_TYPE then "queue" else "node"

/-- Splitting a character list at `'/'` (Python `str.split('/')`,
which always yields at least one piece and keeps empty pieces). -/
def splitSlash : List Char → List (List Char)
  | [] => [[]]
  | '/' :: rest => [] :: splitSlash rest
  | c :: rest =>
    match splitSlash rest with
    | h :: t => (c :: h) :: t
    | [] => [[c]]

/-- `attribute.split('/')`. -/
def splitPath (s : String) : List String :=
  (splitSlash s.toList).map fun cs => String.mk cs

/-- Python truthiness (`if tag:`) for JSON values. -/
def truthy : Json → Bool
  | .null => false
  | .bool b => b
  | .num q => q ≠ 0
  | .str s => !s.isEmpty
  | .arr xs => !xs.isEmpty
  | .obj fs => !fs.isEmpty

/-- `dict.get(k, default)` on a JSON value.  On a non-dict receiver the
attribute lookup of `.get` raises (`AttributeError`). -/
def pyGet (j : Json) (k : String) (dflt : Json) : Except PyErr Json :=
  match j with
  | .obj fs => .ok ((fs.lookup k).getD dflt)
  | _ => .error .attributeError

/-- The path walk of `_get_metrics`: `for path in keys[:-1]: root =
root.get(path, {})` — missing intermediate keys yield an empty dict. -/
def walkPath : Json → List String → Except PyErr Json
  | root, [] => .ok root
  | root, k :: ks =>
    match pyGet root k (.obj []) with
    | .ok r => walkPath r ks
    | .error e => .error e

/-- Whether the prefix walk reaches a dict that lacks the next key (the
"absent intermediate key" situation; from there the walk continues in
empty dicts). -/
def walkHitsAbsent : Json → List String → Bool
  | _, [] => false
  | .obj fs, k :: ks =>
    match fs.lookup k with
    | none => true
    | some v => walkHitsAbsent v ks
  | _, _ => false

/-- The tag list built at the top of `_get_metrics`: for each entry of
`TAGS_MAP[object_type]`, if the record's field is truthy, emit
`rabbitmq_<tagkey>:<value>`. -/
def computeTags (object_type : String) (r : Rec) : List String :=
  (TAGS_MAP object_type).filterMap fun p =>
    match r.lookup p.1 with
    | some v => if truthy v then some ("rabbitmq_" ++ p.2 ++ ":" ++ pyStr v) else none
    | none => none

/-- The debug line logged when a `ValueError` is caught during value
transformation (`"Caught ValueError for %s %s = %s  with tags: %s"`). -/
def debugMsg (object_type attrPath : String) (v : Json) (tags : List String) : String :=
  "Caught ValueError for " ++ METRIC_SUFFIX object_type ++ " " ++ attrPath ++ " = "
    ++ pyStr v ++ "  with tags: [" ++ String.intercalate ", " tags ++ "]"

/-- Metric extraction for one attribute-table entry of one record: walk
the slash-separated path, skip silently if the final value is absent or
`None`, emit a gauge on success, catch (and debug-log) `ValueError`
from the transform, and propagate any other exception. -/
def attrEffects (object_type : String) (r : Rec) (tags : List String) :
    String × String × Op → Except PyErr (List Effect)
  | (attrPath, metric_name, operation) =>
    let keys := splitPath attrPath
    match walkPath (.obj r) keys.dropLast with
    | .error e => .error e
    | .ok root =>
      match pyGet root (keys.getLastD "") .null with
      | .error e => .error e
      | .ok .null => .ok []
      | .ok v =>
        match applyOp operation v with
        | .ok q =>
          .ok [.gauge ("rabbitmq." ++ METRIC_SUFFIX object_type ++ "." ++ metric_name) q tags]
        | .error .valueError => .ok [.debugLog (debugMsg object_type attrPath v tags)]
        | .error e => .error e

/-- The attribute loop of `_get_metrics`: effects of the processed
prefix, plus the uncaught exception (if any) that aborted the loop. -/
def metricsGo (object_type : String) (r : Rec) (tags : List String) :
    List (String × String × Op) → List Effect × Option PyErr
  | [] => ([], none)
  | a :: rest =>
    match attrEffects object_type r tags a with
    | .error e => ([], some e)
    | .ok es =>
      let tail := metricsGo object_type r tags rest
      (es ++ tail.1, tail.2)

/-- `_get_metrics(data, object_type)`. -/
def _get_metrics (object_type : String) (r : Rec) : List Effect × Option PyErr :=
  metricsGo object_type r (computeTags object_type r) (ATTRIBUTES object_type)

/-- The record loop at the end of `get_stats`: run `_get_metrics` on
each record, stopping at the first uncaught exception. -/
def processRecords (object_type : String) : List Rec → List Effect × Option PyErr
  | [] => ([], none)
  | r :: rest =>
    match _get_metrics object_type r with
    | (es, some e) => (es, some e)
    | (es, none) =>
      let tail := processRecords object_type rest
      (es ++ tail.1, tail.2)

/-- How a kept record matched during the filtering pass: by explicit
name, by a regex on the name, by explicit absolute (`vhost/name`) name,
or by a regex on the absolute name. -/
inductive MatchKind where
  | explicitName (e : String)
  | regexName (p : String)
  | explicitAbs (e : String)
  | regexAbs (p : String)
deriving DecidableEq

/-- The explicit entry consumed (removed from the working list) by a
match, if any: only explicit matches deplete the list. -/
def consumedName : MatchKind → Option String
  | .explicitName e => some e
  | .explicitAbs e => some e
  | _ => none

/-- Names consumed by a sequence of matches. -/
def consumedNames (ks : List MatchKind) : List String :=
  ks.filterMap consumedName

/-- Per-object-type filter configuration from the instance
(`specified[object_type]`). -/
structure FilterSpec where
  explicit : List String
  regexes : List String

/-- An abstract model of `re.search`: a pattern and a subject string
yield `none` (no match) or the list of captured groups (which is empty
when the pattern has no groups).  All theorems are parametric in this
function. -/
abbrev ReSearch := String → String → Option (List String)

/-- The string payload of a JSON value, if it is a string. -/
def strOf? : Json → Option String
  | .str s => some s
  | _ => none

/-- `data_line["queue_family"] = g`: set (or add) a field on a record. -/
def recSet (r : Rec) (k : String) (v : Json) : Rec :=
  if (r.lookup k).isSome then
    r.map fun p => if p.1 = k then (p.1, v) else p
  else r ++ [(k, v)]

/-- The family tagging applied on a regex match: if `tag_families` is
enabled and the match has capture groups, attach the first group as the
record's `queue_family` field. -/
def applyFamily (tag_families : Bool) (r : Rec) (groups : List String) : Rec :=
  if tag_families && !groups.isEmpty then recSet r "queue_family" (.str (groups.headD ""))
  else r

/-- The `for p in regex_filters: re.search(p, name)` loop over the
(possibly non-string) `name` value.  With at least one pattern,
`re.search` applied to a non-string subject raises `TypeError`; with no
patterns the loop body never runs. -/
def regexLoop (rs : ReSearch) : List String → Json → Except PyErr (Option (String × List String))
  | [], _ => .ok none
  | p :: rest, nameVal =>
    match nameVal with
    | .str s =>
      match rs p s with
      | some gs => .ok (some (p, gs))
      | none => regexLoop rs rest nameVal
    | _ => .error .typeError

/-- The regex loop over the absolute name, which is always a string
(it is produced by `'%s/%s'` formatting), hence never raises. -/
def regexLoopStr (rs : ReSearch) : List String → String → Option (String × List String)
  | [], _ => none
  | p :: rest, s =>
    match rs p s with
    | some gs => some (p, gs)
    | none => regexLoopStr rs rest s

/-- Steps 3–4 of the per-record filtering, reached only for queues: try
the absolute `vhost/name` key against the (current) explicit list, then
against the regexes. -/
def stepAbs (rs : ReSearch) (tag_families : Bool) (explicit regexes : List String)
    (r : Rec) (absolute_name : String) : Option (Rec × MatchKind) × List String :=
  if explicit.contains absolute_name then
    (some (r, .explicitAbs absolute_name), explicit.erase absolute_name)
  else
    match regexLoopStr rs regexes absolute_name with
    | some (p, gs) => (some (applyFamily tag_families r gs, .regexAbs p), explicit)
    | none => (none, explicit)

/-- The per-record filtering after the explicit-name check failed:
regexes on the name, then (queues only) the absolute-name checks. -/
def stepAfterExplicit (rs : ReSearch) (tag_families : Bool) (object_type : String)
    (explicit regexes : List String) (r : Rec) (nameVal : Json) :
    Except PyErr (Option (Rec × MatchKind) × List String) :=
  match regexLoop rs regexes nameVal with
  | .error e => .error e
  | .ok (some (p, gs)) => .ok (some (applyFamily tag_families r gs, .regexName p), explicit)
  | .ok none =>
    if object_type ≠ QUEUE_TYPE then .ok (none, explicit)
    else
      let absolute_name := pyStr (((r.lookup "vhost").getD .null)) ++ "/" ++ pyStr nameVal
      .ok (stepAbs rs tag_families explicit regexes r absolute_name)

/-- One iteration of the filtering loop of `get_stats` on one record:
returns the kept record (with how it matched) and the updated working
explicit list, or the uncaught exception. -/
def filterStep (rs : ReSearch) (tag_families : Bool) (object_type : String)
    (explicit regexes : List String) (r : Rec) :
    Except PyErr (Option (Rec × MatchKind) × List String) :=
  let nameVal := (r.lookup "name").getD .null
  match strOf? nameVal with
  | some s =>
    if explicit.contains s then .ok (some (r, .explicitName s), explicit.erase s)
    else stepAfterExplicit rs tag_families object_type explicit regexes r nameVal
  | none => stepAfterExplicit rs tag_families object_type explicit regexes r nameVal

/-- Result of a whole filtering pass: the kept records in order, with
how each matched, and what remains of the working explicit list. -/
structure FilterOut where
  kept : List (Rec × MatchKind)
  remaining : List String

/-- The filtering loop of `get_stats` over all fetched records. -/
def filterRecords (rs : ReSearch) (tag_families : Bool) (object_type : String) :
    List Rec → List String → List String → Except PyErr FilterOut
  | [], explicit, _ => .ok ⟨[], explicit⟩
  | r :: rest, explicit, regexes =>
    match filterStep rs tag_families object_type explicit regexes r with
    | .error e => .error e
    | .ok (okept, explicit2) =>
      match filterRecords rs tag_families object_type rest explicit2 regexes with
      | .error e => .error e
      | .ok out => .ok ⟨okept.toList ++ out.kept, out.remaining⟩

/-- The check instance's persistent state: the hostname and the
process-lifetime `already_alerted` key list initialised in
`RabbitMQ.__init__`. -/
structure CheckState where
  hostname : String
  already_alerted : List String
deriving DecidableEq

/-- The dedup key built in `alert`: `"%s%s" % (base_url, object_type)`. -/
def alertKey (base_url object_type : String) : String := base_url ++ object_type

/-- The event posted by `alert` (sans wall-clock timestamp). -/
def alertEvent (host base_url object_type : String) (size max_detailed : ℕ) : Event :=
  { event_type := EVENT_TYPE
    msg_title := "RabbitMQ integration is approaching the limit on the number of "
      ++ object_type ++ " that can be collected from on " ++ host
    msg_text := toString size ++ " " ++ object_type ++ " are present. The limit is "
      ++ toString max_detailed
      ++ ".\n        Please get in touch with Datadog support to increase the limit."
    alert_type := "warning"
    source_type_name := EVENT_TYPE
    host := host
    tags := ["base_url:" ++ base_url, "host:" ++ host]
    event_object := "rabbitmq.limit." ++ object_type }

/-- `alert(self, base_url, max_detailed, size, object_type)`: post one
warning event per key per process lifetime. -/
def alert (st : CheckState) (base_url : String) (max_detailed size : ℕ)
    (object_type : String) : CheckState × List Effect :=
  let key := alertKey base_url object_type
  if st.already_alerted.contains key then (st, [])
  else
    ({ st with already_alerted := st.already_alerted ++ [key] },
     [.event (alertEvent st.hostname base_url object_type size max_detailed)])

/-- `urlparse.urljoin(base, rel)` for the relative paths used by the
check: with a slash-terminated base (as `_get_config` guarantees) the
segment is appended; otherwise the last path segment is replaced. -/
def urljoin (base rel : String) : String :=
  if base.toList.getLast? = some '/' then base ++ rel
  else String.intercalate "/" ((splitPath base).dropLast) ++ "/" ++ rel

/-- The message of the `RabbitMQException` raised by `_get_data` on a
transport failure. -/
def fetchErrMsg (url e : String) : String :=
  "Cannot open RabbitMQ API url: " ++ url ++ " " ++ e

/-- The message of the plain `Exception` raised when the explicit
filter list is longer than `max_detailed`. -/
def configErrMsg (object_type : String) (max_detailed : ℕ) : String :=
  "The maximum number of " ++ object_type ++ " you can specify is "
    ++ toString max_detailed ++ "."

/-- The warning logged when more records than `max_detailed` remain
after filtering (the source says "queues" regardless of type). -/
def tooManyMsg (object_type : String) : String :=
  "Too many queues to fetch. You must choose the " ++ object_type
    ++ " you are interested in by editing the rabbitmq.yaml configuration file or get in touch with Datadog Support"

/-- The network: maps a URL to the decoded JSON body, or to the message
of the `RequestException` that made `_get_data` raise
`RabbitMQException`. -/
abbrev Net := String → Except String Json

/-- The fetched body must be a JSON array of objects to be iterated as
records; other shapes make the Python iteration raise.  (The source
would raise mid-iteration at the first non-dict element; hoisting the
shape check is behaviour-preserving on the well-formed arrays all
theorems use.) -/
def toRecs : Json → Except PyErr (List Rec)
  | .arr xs => xs.mapM fun v =>
      match v with
      | .obj fs => .ok fs
      | _ => .error .attributeError
  | _ => .error .typeError

/-- Everything `get_stats` produces apart from the caller-visible
filter configuration: the effect trace, the updated instance state, the
escaping exception (if any), and instrumentation recording the filtered
list, how each kept record matched, and the records iterated for
metric extraction. -/
structure GetStatsCore where
  trace : List Effect
  state : CheckState
  exc : Option PyExc
  filteredData : List Rec
  consumed : List MatchKind
  processed : List Rec

/-- The filtering phase of `get_stats`: when a list of queues/nodes is
specified (explicit names or regexes), run the filtering loop and keep
the matches; otherwise every record passes through. -/
def filterPhase (rs : ReSearch) (tag_families : Bool) (object_type : String)
    (data0 : List Rec) (explicit_filters regex_filters : List String) :
    Except PyErr (List Rec × List MatchKind) :=
  if !explicit_filters.isEmpty || !regex_filters.isEmpty then
    match filterRecords rs tag_families object_type data0 explicit_filters regex_filters with
    | .error e => .error e
    | .ok out => .ok (out.kept.map Prod.fst, out.kept.map Prod.snd)
  else .ok (data0, [])

/-- The body of `get_stats` given the (copied) explicit list and the
regex list: fetch, fail fast on oversized explicit lists, filter, alert
and warn near/over the limit, then extract metrics from the first
`max_detailed` records. -/
def get_statsCore (net : Net) (rs : ReSearch) (tag_families : Bool) (st : CheckState)
    (base_url object_type : String) (max_detailed : ℕ)
    (explicit_filters regex_filters : List String) : GetStatsCore :=
  let url := urljoin base_url object_type
  match net url with
  | .error e =>
    { trace := [.fetch url], state := st, exc := some (.rabbitExc (fetchErrMsg url e)),
      filteredData := [], consumed := [], processed := [] }
  | .ok body =>
    if explicit_filters.length > max_detailed then
      { trace := [.fetch url], state := st,
        exc := some (.configExc (configErrMsg object_type max_detailed)),
        filteredData := [], consumed := [], processed := [] }
    else
      match toRecs body with
      | .error e =>
        { trace := [.fetch url], state := st, exc := some (.pyErr e),
          filteredData := [], consumed := [], processed := [] }
      | .ok data0 =>
        match filterPhase rs tag_families object_type data0 explicit_filters regex_filters with
        | .error e =>
          { trace := [.fetch url], state := st, exc := some (.pyErr e),
            filteredData := [], consumed := [], processed := [] }
        | .ok (data, consumed) =>
          -- `len(data) > ALERT_THRESHOLD * max_detailed` with
          -- `ALERT_THRESHOLD = 0.9`: the binary64 comparison coincides
          -- with the exact rational one `10·len > 9·max` throughout the
          -- integer ranges of this check (the product `0.9 * max`
          -- deviates from 9·max/10 by far less than the distance to the
          -- nearest integer).
          let alertStep : CheckState × List Effect :=
            if 10 * data.length > 9 * max_detailed then
              let a := alert st base_url max_detailed data.length object_type
              (a.1, .alertCall base_url object_type data.length max_detailed :: a.2)
            else (st, [])
          let warnEffects : List Effect :=
            if data.length > max_detailed then [.warning (tooManyMsg object_type)] else []
          let processed := data.take max_detailed
          let m := processRecords object_type processed
          { trace := .fetch url :: (alertStep.2 ++ warnEffects ++ m.1),
            state := alertStep.1, exc := m.2.map .pyErr,
            filteredData := data, consumed := consumed, processed := processed }

/-- `get_stats`' full result: `callerFilters` is the filter
configuration as the caller sees it after the call returns. -/
structure GetStatsResult extends GetStatsCore where
  callerFilters : FilterSpec

/-- `get_stats(...)`.  The source copies the explicit list
(`explicit_filters = list(filters['explicit'])`) before depleting it
during matching, so the caller's configuration is returned unchanged. -/
def get_stats (net : Net) (rs : ReSearch) (tag_families : Bool) (st : CheckState)
    (base_url object_type : String) (max_detailed : ℕ) (filters : FilterSpec) :
    GetStatsResult :=
  { get_statsCore net rs tag_families st base_url object_type max_detailed
      filters.explicit filters.regexes with
    callerFilters := filters }

/-- Result of a step that has no caller-visible filter list:
trace, state, escaping exception. -/
structure StepResult where
  trace : List Effect
  state : CheckState
  exc : Option PyExc

/-- `urllib.quote_plus`: unreserved characters pass through, space
becomes `+`, anything else is percent-encoded byte-wise (modelled on
the character's low byte). -/
def quotePlus (s : String) : String :=
  String.join (s.toList.map fun c =>
    if c.isAlphanum || c = '_' || c = '.' || c = '-' then String.singleton c
    else if c = ' ' then "+"
    else
      let n := c.toNat % 256
      let hex : ℕ → Char := fun d => if d < 10 then Char.ofNat (48 + d) else Char.ofNat (55 + d)
      "%" ++ String.singleton (hex (n / 16)) ++ String.singleton (hex (n % 16)))

/-- The aliveness URL for one vhost:
`urljoin(base_url, 'aliveness-test/%s' % quote_plus(vhost))`. -/
def alivenessUrl (base_url vhost : String) : String :=
  urljoin base_url ("aliveness-test/" ++ quotePlus vhost)

/-- The verdict drawn from an aliveness response dict:
`OK` iff `aliveness_response.get('status') == 'ok'`. -/
def alivenessVerdict (fs : Rec) : Status :=
  match fs.lookup "status" with
  | some (.str s) => if s = "ok" then .OK else .CRITICAL
  | _ => .CRITICAL

/-- The `message` passed with the aliveness service check. -/
def alivenessMessage (resp : Json) : String :=
  "Response from aliveness API: " ++ pyStr resp

/-- The per-vhost loop of `_check_aliveness`: fetch the aliveness
endpoint and emit one `rabbitmq.aliveness` service check; a fetch
failure (or a non-dict response body) aborts the remaining vhosts. -/
def alivenessLoop (net : Net) (st : CheckState) (base_url : String) :
    List String → StepResult
  | [] => { trace := [], state := st, exc := none }
  | v :: rest =>
    let url := alivenessUrl base_url v
    match net url with
    | .error e =>
      { trace := [.fetch url], state := st, exc := some (.rabbitExc (fetchErrMsg url e)) }
    | .ok resp =>
      match resp with
      | .obj fs =>
        let sc : Effect := .serviceCheck "rabbitmq.aliveness" (alivenessVerdict fs)
          ["vhost:" ++ v] (alivenessMessage resp)
        let tail := alivenessLoop net st base_url rest
        { trace := .fetch url :: sc :: tail.trace, state := tail.state, exc := tail.exc }
      | _ => { trace := [.fetch url], state := st, exc := some (.pyErr .attributeError) }

/-- Extracting `[v['name'] for v in vhosts_response]`; a missing
`name` raises `KeyError`, a non-array body or non-dict element raises,
and a non-string name would fail in `quote_plus` below. -/
def vhostNames : Json → Except PyErr (List String)
  | .arr xs => xs.mapM fun v =>
      match v with
      | .obj fs =>
        match fs.lookup "name" with
        | some (.str s) => .ok s
        | some _ => .error .typeError
        | none => .error .keyError
      | _ => .error .typeError
  | _ => .error .typeError

/-- `_check_aliveness(instance, base_url, vhosts, ...)`: when the vhost
list is missing or empty (`if not vhosts:`) the full list is first
fetched from the API. -/
def _check_aliveness (net : Net) (st : CheckState) (base_url : String)
    (vhosts : Option (List String)) : StepResult :=
  match vhosts with
  | some (v :: vs) => alivenessLoop net st base_url (v :: vs)
  | _ =>
    let url := urljoin base_url "vhosts"
    match net url with
    | .error e =>
      { trace := [.fetch url], state := st, exc := some (.rabbitExc (fetchErrMsg url e)) }
    | .ok body =>
      match vhostNames body with
      | .error e => { trace := [.fetch url], state := st, exc := some (.pyErr e) }
      | .ok vs =>
        let tail := alivenessLoop net st base_url vs
        { trace := .fetch url :: tail.trace, state := tail.state, exc := tail.exc }

/-- The message of the critical `rabbitmq.status` service check:
`"Error executing check: {}".format(e)`. -/
def criticalMsg (m : String) : String := "Error executing check: " ++ m

/-- The two effects of the `except RabbitMQException` handler in
`check`: the critical top-level service check, then the error log. -/
def criticalEffects (m : String) : List Effect :=
  [.serviceCheck "rabbitmq.status" .CRITICAL [] (criticalMsg m),
   .errorLog (criticalMsg m)]

/-- `check(instance)` with the configuration already resolved by
`_get_config`: queue stats, node stats, aliveness, then the OK
`rabbitmq.status` service check; a `RabbitMQException` from any step
skips everything after it and is caught by the handler, while any
other exception escapes to the scheduler. -/
def check (net : Net) (rs : ReSearch) (tag_families : Bool)
    (vhosts : Option (List String)) (st : CheckState) (base_url : String)
    (maxq maxn : ℕ) (qfilters nfilters : FilterSpec) : StepResult :=
  let r1 := get_stats net rs tag_families st base_url QUEUE_TYPE maxq qfilters
  match r1.exc with
  | some (.rabbitExc m) =>
    { trace := r1.trace ++ criticalEffects m, state := r1.state, exc := none }
  | some e => { trace := r1.trace, state := r1.state, exc := some e }
  | none =>
    let r2 := get_stats net rs tag_families r1.state base_url NODE_TYPE maxn nfilters
    match r2.exc with
    | some (.rabbitExc m) =>
      { trace := r1.trace ++ r2.trace ++ criticalEffects m, state := r2.state, exc := none }
    | some e => { trace := r1.trace ++ r2.trace, state := r2.state, exc := some e }
    | none =>
      let r3 := _check_aliveness net r2.state base_url vhosts
      match r3.exc with
      | some (.rabbitExc m) =>
        { trace := r1.trace ++ r2.trace ++ r3.trace ++ criticalEffects m,
          state := r3.state, exc := none }
      | some e =>
        { trace := r1.trace ++ r2.trace ++ r3.trace, state := r3.state, exc := some e }
      | none =>
        { trace := r1.trace ++ r2.trace ++ r3.trace
            ++ [.serviceCheck "rabbitmq.status" .OK [] ""],
          state := r3.state, exc := none }

/-!  Concrete fixtures used by witnesses and counterexamples. -/

/-- A regex engine that never matches, for concrete instantiations of
theorems that are parametric in the engine. -/
def rsNone : ReSearch := fun _ _ => none

/-- A network whose every endpoint returns an empty record array. -/
def netEmpty : Net := fun _ => .ok (.arr [])

/-- A fresh instance state, as after `RabbitMQ.__init__`. -/
def stFresh : CheckState := ⟨"agent-host", []⟩

/-!  Helper lemmas. -/

/-- `get_statsCore`'s filtering outcome does not depend on the alert
state. -/
theorem get_statsCore_filteredData_state_free (net : Net) (rs : ReSearch) (tf : Bool)
    (st st' : CheckState) (base otype : String) (maxd : ℕ) (ef rf : List String) :
    (get_statsCore net rs tf st base otype maxd ef rf).filteredData
      = (get_statsCore net rs tf st' base otype maxd ef rf).filteredData := by
  simp only [get_statsCore]
  cases hnet : net (urljoin base otype) with
  | error e => rfl
  | ok body =>
    by_cases hlen : ef.length > maxd
    · simp [hlen]
    · simp only [if_neg hlen]
      cases hrecs : toRecs body with
      | error e => rfl
      | ok data0 =>
        cases hfil : filterPhase rs tf otype data0 ef rf with
        | error e => simp only [hfil]
        | ok dc => simp only [hfil]

/-!  C1. -/

/-- C1: the claim says the configuration error for an oversized
explicit list fires "before any network call".  In the code the fetch
for the object type happens first: at this concrete input the
configuration error is raised, yet the fetch of the queues endpoint is
already in the trace. -/
theorem c1_counterexample :
    (get_stats netEmpty rsNone false stFresh "http://host/api/" QUEUE_TYPE 1
        ⟨["a", "b"], []⟩).exc = some (.configExc (configErrMsg QUEUE_TYPE 1)) ∧
    Effect.fetch "http://host/api/queues" ∈
      (get_stats netEmpty rsNone false stFresh "http://host/api/" QUEUE_TYPE 1
        ⟨["a", "b"], []⟩).trace :=
  ⟨rfl, by decide⟩

/-- C1 (amended): if the explicit filter list for an object type is
longer than the configured maximum, `get_stats` raises the
configuration error — after the object type's HTTP fetch (assuming that
fetch succeeds), but before any filtering, alerting, warning or metric
emission: the trace holds exactly the fetch. -/
theorem c1_config_error_after_fetch (net : Net) (rs : ReSearch) (tf : Bool)
    (st : CheckState) (base otype : String) (maxd : ℕ) (filters : FilterSpec) (body : Json)
    (hfetch : net (urljoin base otype) = .ok body)
    (hlen : filters.explicit.length > maxd) :
    (get_stats net rs tf st base otype maxd filters).exc
        = some (.configExc (configErrMsg otype maxd)) ∧
    (get_stats net rs tf st base otype maxd filters).trace
        = [.fetch (urljoin base otype)] := by
  constructor <;> simp only [get_stats, get_statsCore, hfetch, if_pos hlen]

/-- Witness for C1's amended theorem at a concrete input. -/
theorem c1_witness :
    netEmpty (urljoin "http://host/api/" QUEUE_TYPE) = .ok (.arr []) ∧
    (FilterSpec.mk ["a", "b"] []).explicit.length > 1 ∧
    (get_stats netEmpty rsNone false stFresh "http://host/api/" QUEUE_TYPE 1
        ⟨["a", "b"], []⟩).trace = [.fetch (urljoin "http://host/api/" QUEUE_TYPE)] :=
  ⟨rfl, by decide,
   (c1_config_error_after_fetch netEmpty rsNone false stFresh "http://host/api/" QUEUE_TYPE 1
      ⟨["a", "b"], []⟩ (.arr []) rfl (by decide)).2⟩

/-!  C7. -/

/-- C7: the claim says every failure of the value transform on a
present value is caught.  Only `ValueError` is caught: `float` applied
to a present list value raises `TypeError`, which aborts the record's
metric extraction and propagates out of `get_stats`. -/
theorem c7_counterexample :
    applyOp .opFloat (.arr []) = .error .typeError ∧
    _get_metrics NODE_TYPE [("fd_used", .arr [])] = ([], some .typeError) ∧
    (get_stats (fun _ => .ok (.arr [.obj [("fd_used", .arr [])]])) rsNone false stFresh
        "http://host/api/" NODE_TYPE 10 ⟨[], []⟩).exc = some (.pyErr .typeError) :=
  ⟨rfl, rfl, rfl⟩

/-- C7 (amended): when the transform of a present, non-null value fails
with `ValueError` (e.g. a non-numeric string under `float`), the
failure is caught and logged at debug level, only that metric is
skipped, and the remaining attributes are processed normally. -/
theorem c7_valueerror_caught (otype : String) (r : Rec) (tags : List String)
    (attrPath mname : String) (op : Op) (root : Rec) (v : Json)
    (hwalk : walkPath (.obj r) (splitPath attrPath).dropLast = .ok (.obj root))
    (hv : root.lookup ((splitPath attrPath).getLastD "") = some v)
    (hnn : v ≠ .null)
    (hfail : applyOp op v = .error .valueError) :
    attrEffects otype r tags (attrPath, mname, op)
        = .ok [.debugLog (debugMsg otype attrPath v tags)] ∧
    ∀ rest, metricsGo otype r tags ((attrPath, mname, op) :: rest)
        = (.debugLog (debugMsg otype attrPath v tags) :: (metricsGo otype r tags rest).1,
           (metricsGo otype r tags rest).2) := by
  have h1 : attrEffects otype r tags (attrPath, mname, op)
      = .ok [.debugLog (debugMsg otype attrPath v tags)] := by
    simp only [attrEffects, hwalk, pyGet, hv, Option.getD]
    cases v with
    | null => exact absurd rfl hnn
    | bool b => simp only [hfail]
    | num q => simp only [hfail]
    | str s => simp only [hfail]
    | arr xs => simp only [hfail]
    | obj fs => simp only [hfail]
  refine ⟨h1, fun rest => ?_⟩
  simp only [metricsGo, h1, List.singleton_append]

/-- Witness for C7's amended theorem: a non-numeric string under
`float` is caught and only debug-logged. -/
theorem c7_witness :
    walkPath (.obj [("fd_used", Json.str "oops")]) (splitPath "fd_used").dropLast
        = .ok (.obj [("fd_used", Json.str "oops")]) ∧
    ([("fd_used", Json.str "oops")] : Rec).lookup ((splitPath "fd_used").getLastD "")
        = some (.str "oops") ∧
    applyOp .opFloat (.str "oops") = .error .valueError ∧
    attrEffects NODE_TYPE [("fd_used", Json.str "oops")] [] ("fd_used", "fd_used", .opFloat)
        = .ok [.debugLog (debugMsg NODE_TYPE "fd_used" (.str "oops") [])] :=
  ⟨rfl, rfl, rfl,
   (c7_valueerror_caught NODE_TYPE [("fd_used", Json.str "oops")] [] "fd_used" "fd_used"
      .opFloat [("fd_used", Json.str "oops")] (.str "oops") rfl rfl
      (fun h => Json.noConfusion h) rfl).1⟩

/-!  C9. -/

/-- C9: `get_stats` leaves the caller's filter configuration unchanged
(the source depletes only a copy of the explicit list), so an
immediately repeated invocation from the returned state and the
returned configuration filters the same records. -/
theorem c9_filters_preserved (net : Net) (rs : ReSearch) (tf : Bool) (st : CheckState)
    (base otype : String) (maxd : ℕ) (filters : FilterSpec) :
    (get_stats net rs tf st base otype maxd filters).callerFilters = filters ∧
    (get_stats net rs tf (get_stats net rs tf st base otype maxd filters).state
        base otype maxd (get_stats net rs tf st base otype maxd filters).callerFilters).filteredData
      = (get_stats net rs tf st base otype maxd filters).filteredData := by
  refine ⟨rfl, ?_⟩
  simp only [get_stats]
  exact get_statsCore_filteredData_state_free net rs tf _ st base otype maxd
    filters.explicit filters.regexes

/-!  C4. -/

/-- Appending the same string on the right is cancellative. -/
theorem string_append_cancel (b b2 t : String) (h : b ++ t = b2 ++ t) : b = b2 := by
  have h2 := congrArg (fun s => s.data.reverse) h
  simp only [String.data_append, List.reverse_append] at h2
  cases b; cases b2
  simp_all

/-- No string ending in `"queues"` equals one ending in `"nodes"`. -/
theorem key_queues_ne_nodes (b b2 : String) : b ++ QUEUE_TYPE ≠ b2 ++ NODE_TYPE := by
  intro h
  have h2 := congrArg (fun s => s.data.reverse) h
  simp [QUEUE_TYPE, NODE_TYPE, String.data_append] at h2

/-- For the two object types of this check, the concatenated dedup key
determines both components. -/
theorem alertKey_inj (b t b2 t2 : String)
    (ht : t = QUEUE_TYPE ∨ t = NODE_TYPE) (ht2 : t2 = QUEUE_TYPE ∨ t2 = NODE_TYPE)
    (h : alertKey b t = alertKey b2 t2) : b = b2 ∧ t = t2 := by
  rcases ht with rfl | rfl <;> rcases ht2 with rfl | rfl
  · exact ⟨string_append_cancel _ _ _ h, rfl⟩
  · exact absurd h (key_queues_ne_nodes b b2)
  · exact absurd h.symm (key_queues_ne_nodes b2 b)
  · exact ⟨string_append_cancel _ _ _ h, rfl⟩

/-- C4: the alert deduplicator posts at most one event per key (the
concatenation of `base_url` and object type) per process lifetime: a
first call for a fresh key posts the warning event and records the
key; any later call for the same key is a no-op; and a call for a
different `(base_url, object_type)` pair (with the check's two object
types) still posts its own independent event. -/
theorem c4_alert_dedup (st : CheckState) (b t b2 t2 : String)
    (maxd size maxd2 size2 : ℕ)
    (ht : t = QUEUE_TYPE ∨ t = NODE_TYPE) (ht2 : t2 = QUEUE_TYPE ∨ t2 = NODE_TYPE) :
    (alertKey b t ∉ st.already_alerted →
      (alert st b maxd size t).2 = [.event (alertEvent st.hostname b t size maxd)] ∧
      (alert st b maxd size t).1.already_alerted = st.already_alerted ++ [alertKey b t]) ∧
    (alertKey b t ∈ st.already_alerted → alert st b maxd size t = (st, [])) ∧
    (alert (alert st b maxd size t).1 b maxd2 size2 t).2 = [] ∧
    ((b, t) ≠ (b2, t2) → alertKey b2 t2 ∉ st.already_alerted →
      (alert (alert st b maxd size t).1 b2 maxd2 size2 t2).2
        = [.event (alertEvent st.hostname b2 t2 size2 maxd2)]) := by
  refine ⟨?_, ?_, ?_, ?_⟩
  · intro hmem
    simp [alert, List.elem_iff, hmem]
  · intro hmem
    simp [alert, List.elem_iff, hmem]
  · by_cases hmem : alertKey b t ∈ st.already_alerted
    · simp [alert, List.elem_iff, hmem]
    · simp [alert, List.elem_iff, hmem]
  · intro hne hmem2
    have hkne : alertKey b2 t2 ≠ alertKey b t := by
      intro h
      exact hne (by
        obtain ⟨hb, htt⟩ := alertKey_inj b2 t2 b t ht2 ht h
        simp [hb, htt])
    by_cases hmem : alertKey b t ∈ st.already_alerted
    · simp [alert, List.elem_iff, hmem, hmem2]
    · simp [alert, List.elem_iff, hmem, hmem2, hkne]

/-- Witness for C4 at concrete inputs: the first queues alert posts an
event, a repeat is a no-op, and the nodes alert for the same base URL
still posts its own event. -/
theorem c4_witness :
    (alert stFresh "http://h/api/" 100 95 QUEUE_TYPE).2
        = [.event (alertEvent stFresh.hostname "http://h/api/" QUEUE_TYPE 95 100)] ∧
    (alert (alert stFresh "http://h/api/" 100 95 QUEUE_TYPE).1 "http://h/api/" 100 96 QUEUE_TYPE).2
        = [] ∧
    (alert (alert stFresh "http://h/api/" 100 95 QUEUE_TYPE).1 "http://h/api/" 50 45 NODE_TYPE).2
        = [.event (alertEvent stFresh.hostname "http://h/api/" NODE_TYPE 45 50)] :=
  ⟨((c4_alert_dedup stFresh "http://h/api/" QUEUE_TYPE "http://h/api/" NODE_TYPE 100 95 50 45
      (Or.inl rfl) (Or.inr rfl)).1 (by decide)).1,
   (c4_alert_dedup stFresh "http://h/api/" QUEUE_TYPE "http://h/api/" NODE_TYPE 100 95 100 96
      (Or.inl rfl) (Or.inr rfl)).2.2.1,
   (c4_alert_dedup stFresh "http://h/api/" QUEUE_TYPE "http://h/api/" NODE_TYPE 100 95 50 45
      (Or.inl rfl) (Or.inr rfl)).2.2.2 (by decide) (by decide)⟩

/-!  C6. -/

/-- Once the walk is in an empty dict, it stays there: every further
`.get(path, {})` returns the default empty dict. -/
theorem walkPath_empty (ks : List String) : walkPath (.obj []) ks = .ok (.obj []) := by
  induction ks with
  | nil => rfl
  | cons k ks ih => simpa [walkPath, pyGet] using ih

/-- If the walk reaches a dict lacking the next key, it completes
successfully with the empty dict. -/
theorem walkPath_of_hitsAbsent (ks : List String) (root : Json)
    (h : walkHitsAbsent root ks = true) : walkPath root ks = .ok (.obj []) := by
  induction ks generalizing root with
  | nil => simp [walkHitsAbsent] at h
  | cons k ks ih =>
    cases root with
    | obj fs =>
      rw [walkHitsAbsent] at h
      rw [walkPath]
      cases hl : fs.lookup k with
      | none => simp [pyGet, hl, walkPath_empty]
      | some v =>
        rw [hl] at h
        simp only [pyGet, hl, Option.getD]
        exact ih v h
    | null => simp [walkHitsAbsent] at h
    | bool b => simp [walkHitsAbsent] at h
    | num q => simp [walkHitsAbsent] at h
    | str s => simp [walkHitsAbsent] at h
    | arr xs => simp [walkHitsAbsent] at h

/-- C6: an attribute whose slash path meets an absent intermediate key
(the walk defaults to an empty dict), or whose final key is absent or
null, yields no gauge and no exception, and the record's remaining
attributes are processed exactly as if the attribute were not there. -/
theorem c6_missing_path_tolerated (otype : String) (r : Rec) (tags : List String)
    (attrPath mname : String) (op : Op)
    (h : walkHitsAbsent (.obj r) (splitPath attrPath).dropLast = true
       ∨ ∃ root, walkPath (.obj r) (splitPath attrPath).dropLast = .ok (.obj root)
           ∧ (root.lookup ((splitPath attrPath).getLastD "") = none
              ∨ root.lookup ((splitPath attrPath).getLastD "") = some .null)) :
    attrEffects otype r tags (attrPath, mname, op) = .ok [] ∧
    ∀ rest, metricsGo otype r tags ((attrPath, mname, op) :: rest)
        = metricsGo otype r tags rest := by
  have h1 : attrEffects otype r tags (attrPath, mname, op) = .ok [] := by
    rcases h with habs | ⟨root, hwalk, hfin⟩
    · have hw := walkPath_of_hitsAbsent _ _ habs
      simp [attrEffects, hw, pyGet]
    · rcases hfin with hfin | hfin <;>
        · simp only [List.getLastD_eq_getLast?] at hfin
          simp [attrEffects, hwalk, pyGet, hfin]
  refine ⟨h1, fun rest => ?_⟩
  simp [metricsGo, h1]

/-- Witness for C6: a bare queue record has no `messages_details`
intermediate key, so the `messages_details/rate` attribute is skipped
without error and without affecting the rest. -/
theorem c6_witness :
    walkHitsAbsent (.obj [("name", Json.str "q")])
        (splitPath "messages_details/rate").dropLast = true ∧
    attrEffects QUEUE_TYPE [("name", Json.str "q")] []
        ("messages_details/rate", "messages.rate", .opFloat) = .ok [] :=
  ⟨by decide,
   (c6_missing_path_tolerated QUEUE_TYPE [("name", Json.str "q")] []
      "messages_details/rate" "messages.rate" .opFloat (Or.inl (by decide))).1⟩

/-!  C10. -/

/-- `re.search` over a string subject never raises. -/
theorem regexLoop_str_no_error (rs : ReSearch) (pats : List String) (s : String) (e : PyErr) :
    regexLoop rs pats (.str s) ≠ .error e := by
  induction pats with
  | nil => simp [regexLoop]
  | cons p rest ih =>
    rw [regexLoop]
    cases rs p s with
    | some gs => simp
    | none => simpa using ih

/-- A value that is not a string under `strOf?` is not a string. -/
theorem strOf?_eq_some (v : Json) (s : String) (h : strOf? v = some s) : v = .str s := by
  cases v <;> simp [strOf?] at h
  rw [h]

/-- With at least one regex pattern and a record whose `name` value is
not a string, the per-record filtering step raises `TypeError`. -/
theorem filterStep_nostr_error (rs : ReSearch) (tf : Bool) (otype : String)
    (explicit : List String) (p : String) (ps : List String) (r : Rec)
    (hname : strOf? ((r.lookup "name").getD .null) = none) :
    filterStep rs tf otype explicit (p :: ps) r = .error .typeError := by
  rw [filterStep]
  rw [hname]
  rw [stepAfterExplicit]
  cases hv : (r.lookup "name").getD .null <;> simp_all [strOf?, regexLoop]

/-- Any exception escaping the per-record filtering step is the
`TypeError` from `re.search` on a non-string name. -/
theorem filterStep_error_eq (rs : ReSearch) (tf : Bool) (otype : String)
    (explicit regexes : List String) (r : Rec) (e : PyErr)
    (h : filterStep rs tf otype explicit regexes r = .error e) : e = .typeError := by
  rw [filterStep] at h
  cases hs : strOf? ((r.lookup "name").getD .null) with
  | some s =>
    rw [hs] at h
    dsimp only at h
    split at h
    · simp at h
    · rw [stepAfterExplicit] at h
      have hv := strOf?_eq_some _ _ hs
      rw [hv] at h
      cases hrl : regexLoop rs regexes (.str s) with
      | error e2 => exact absurd hrl (regexLoop_str_no_error rs regexes s e2)
      | ok o =>
        rw [hrl] at h
        cases o with
        | some pg => simp at h
        | none =>
          by_cases ho : otype ≠ QUEUE_TYPE
          · simp [ho] at h
          · simp [ho] at h
  | none =>
    rw [hs] at h
    rw [stepAfterExplicit] at h
    cases regexes with
    | nil =>
      simp only [regexLoop] at h
      by_cases ho : otype ≠ QUEUE_TYPE
      · simp [ho] at h
      · simp [ho] at h
    | cons p ps =>
      cases hv : (r.lookup "name").getD .null <;> rw [hv] at h <;>
        simp_all [strOf?, regexLoop]

/-- Any exception escaping the whole filtering pass is that
`TypeError`. -/
theorem filterRecords_error_eq (rs : ReSearch) (tf : Bool) (otype : String) :
    ∀ (data : List Rec) (explicit regexes : List String) (e : PyErr),
    filterRecords rs tf otype data explicit regexes = .error e → e = .typeError := by
  intro data
  induction data with
  | nil => intro explicit regexes e h; simp [filterRecords] at h
  | cons d rest ih =>
    intro explicit regexes e h
    rw [filterRecords] at h
    cases hstep : filterStep rs tf otype explicit regexes d with
    | error e2 =>
      rw [hstep] at h
      cases h
      exact filterStep_error_eq rs tf otype explicit regexes d e hstep
    | ok oe =>
      obtain ⟨okept, explicit2⟩ := oe
      simp only [hstep] at h
      cases hrec : filterRecords rs tf otype rest explicit2 regexes with
      | error e2 =>
        simp only [hrec] at h
        cases h
        exact ih explicit2 regexes e hrec
      | ok out => simp only [hrec] at h; cases h

/-- With at least one regex pattern, a record list containing a record
with no (or a null) `name` field makes the filtering pass raise. -/
theorem filterRecords_bad_name (rs : ReSearch) (tf : Bool) (otype : String) :
    ∀ (data : List Rec) (explicit : List String) (p : String) (ps : List String),
    (∃ r ∈ data, r.lookup "name" = none ∨ r.lookup "name" = some .null) →
    filterRecords rs tf otype data explicit (p :: ps) = .error .typeError := by
  intro data
  induction data with
  | nil =>
    intro explicit p ps hbad
    obtain ⟨r, hr, _⟩ := hbad
    cases hr
  | cons d rest ih =>
    intro explicit p ps hbad
    rw [filterRecords]
    obtain ⟨r, hr, hname⟩ := hbad
    rcases List.mem_cons.mp hr with rfl | hr2
    · have hno : strOf? ((r.lookup "name").getD .null) = none := by
        rcases hname with hname | hname <;> simp [hname, strOf?]
      rw [filterStep_nostr_error rs tf otype explicit p ps r hno]
    · cases hstep : filterStep rs tf otype explicit (p :: ps) d with
      | error e2 =>
        have := filterStep_error_eq rs tf otype explicit (p :: ps) d e2 hstep
        rw [this]
      | ok oe =>
        obtain ⟨okept, explicit2⟩ := oe
        simp only [hstep, ih explicit2 p ps ⟨r, hr2, hname⟩]

/-- C10: if a regex filter is configured and some fetched record has an
absent or null `name`, `get_stats` raises during filtering (the
`TypeError` of `re.search` on a missing name) instead of silently
dropping the record. -/
theorem c10_missing_name_raises (net : Net) (rs : ReSearch) (tf : Bool) (st : CheckState)
    (base otype : String) (maxd : ℕ) (filters : FilterSpec) (body : Json) (data0 : List Rec)
    (hfetch : net (urljoin base otype) = .ok body)
    (hlen : ¬ filters.explicit.length > maxd)
    (hrecs : toRecs body = .ok data0)
    (hreg : filters.regexes ≠ [])
    (hbad : ∃ r ∈ data0, r.lookup "name" = none ∨ r.lookup "name" = some .null) :
    (get_stats net rs tf st base otype maxd filters).exc = some (.pyErr .typeError) := by
  obtain ⟨p, ps, hps⟩ := List.exists_cons_of_ne_nil hreg
  have hfil : filterPhase rs tf otype data0 filters.explicit filters.regexes
      = .error .typeError := by
    rw [filterPhase]
    have hcond : (!filters.explicit.isEmpty || !filters.regexes.isEmpty) = true := by
      rw [hps]; simp
    rw [if_pos hcond]
    rw [hps, filterRecords_bad_name rs tf otype data0 filters.explicit p ps hbad]
  simp only [get_stats, get_statsCore, hfetch, if_neg hlen, hrecs, hfil]

/-- Witness for C10: one nameless record and the pattern list
`[".*"]`. -/
theorem c10_witness :
    netEmpty (urljoin "http://h/api/" QUEUE_TYPE) = .ok (.arr []) ∧
    (get_stats (fun _ => .ok (.arr [.obj [("messages", .num 1)]])) rsNone false stFresh
        "http://h/api/" QUEUE_TYPE 5 ⟨[], [".*"]⟩).exc = some (.pyErr .typeError) :=
  ⟨rfl,
   c10_missing_name_raises (fun _ => .ok (.arr [.obj [("messages", .num 1)]])) rsNone false
     stFresh "http://h/api/" QUEUE_TYPE 5 ⟨[], [".*"]⟩ (.arr [.obj [("messages", .num 1)]])
     [[("messages", .num 1)]] rfl (by decide) rfl (by decide)
     ⟨[("messages", .num 1)], List.mem_cons_self _ _, Or.inl rfl⟩⟩

/-!  C5. -/

/-- The aliveness verdict is healthy exactly when the response's
`status` field is the string `"ok"`. -/
theorem alivenessVerdict_ok_iff (fs : Rec) :
    alivenessVerdict fs = .OK ↔ fs.lookup "status" = some (.str "ok") := by
  rw [alivenessVerdict]
  cases hl : fs.lookup "status" with
  | none => simp
  | some v =>
    cases v with
    | str s =>
      by_cases hs : s = "ok"
      · simp [hs]
      · simp [hs]
    | null => simp
    | bool b => simp
    | num q => simp
    | arr xs => simp
    | obj f2 => simp

/-- C5: for every vhost the aliveness loop reaches, a dict response
with `status == "ok"` yields an OK `rabbitmq.aliveness` service check
and any other status value yields a CRITICAL one, tagged
`vhost:<name>` and carrying the raw response in the message. -/
theorem c5_aliveness_verdicts (net : Net) (st : CheckState) (base : String)
    (vhosts : List String) :
    (∀ v ∈ vhosts, ∃ fs, net (alivenessUrl base v) = .ok (.obj fs)) →
    ∀ v ∈ vhosts, ∀ fs, net (alivenessUrl base v) = .ok (.obj fs) →
      (Effect.serviceCheck "rabbitmq.aliveness" (alivenessVerdict fs)
          ["vhost:" ++ v] (alivenessMessage (.obj fs))
        ∈ (alivenessLoop net st base vhosts).trace) ∧
      (alivenessVerdict fs = .OK ↔ fs.lookup "status" = some (.str "ok")) := by
  induction vhosts with
  | nil => intro _ v hv; cases hv
  | cons w rest ih =>
    intro hok v hv fs hfs
    refine ⟨?_, alivenessVerdict_ok_iff fs⟩
    obtain ⟨gs, hgs⟩ := hok w (List.mem_cons_self w rest)
    rw [alivenessLoop, hgs]
    dsimp only
    rcases List.mem_cons.mp hv with rfl | hv2
    · have h1 := hgs.symm.trans hfs
      simp only [Except.ok.injEq, Json.obj.injEq] at h1
      subst h1
      exact List.mem_cons_of_mem _ (List.mem_cons_self _ _)
    · exact List.mem_cons_of_mem _ (List.mem_cons_of_mem _
        ((ih (fun u hu => hok u (List.mem_cons_of_mem _ hu)) v hv2 fs hfs).1))

/-- Witness for C5: vhost `/` with an `ok` response is reported OK,
and a `failed` status means the verdict is not OK (i.e. CRITICAL). -/
theorem c5_witness :
    (Effect.serviceCheck "rabbitmq.aliveness"
        (alivenessVerdict [("status", Json.str "ok")]) ["vhost:/"]
        (alivenessMessage (.obj [("status", Json.str "ok")]))
      ∈ (alivenessLoop (fun _ => .ok (.obj [("status", Json.str "ok")])) stFresh
          "http://h/api/" ["/"]).trace) ∧
    alivenessVerdict [("status", Json.str "ok")] = .OK ∧
    alivenessVerdict [("status", Json.str "failed")] = .CRITICAL :=
  ⟨(c5_aliveness_verdicts (fun _ => .ok (.obj [("status", Json.str "ok")])) stFresh
      "http://h/api/" ["/"]
      (fun v hv => ⟨[("status", Json.str "ok")], rfl⟩)
      "/" (List.mem_cons_self _ _) [("status", Json.str "ok")] rfl).1,
   by decide, by decide⟩

/-!  C3. -/

/-- Metric extraction for one attribute only ever emits gauges and
debug logs. -/
theorem attrEffects_shapes (otype : String) (r : Rec) (tags : List String)
    (a : String × String × Op) (es : List Effect)
    (h : attrEffects otype r tags a = .ok es) :
    ∀ e ∈ es, (∃ n v t, e = .gauge n v t) ∨ ∃ m, e = .debugLog m := by
  obtain ⟨ap, mn, op⟩ := a
  rw [attrEffects] at h
  split at h
  · cases h
  · split at h
    · cases h
    · cases h
      intro e he
      cases he
    · split at h
      · cases h
        intro e he
        rcases List.mem_singleton.mp he with rfl
        exact Or.inl ⟨_, _, _, rfl⟩
      · cases h
        intro e he
        rcases List.mem_singleton.mp he with rfl
        exact Or.inr ⟨_, rfl⟩
      · cases h

/-- The attribute loop only ever emits gauges and debug logs. -/
theorem metricsGo_shapes (otype : String) (r : Rec) (tags : List String) :
    ∀ (attrs : List (String × String × Op)), ∀ e ∈ (metricsGo otype r tags attrs).1,
      (∃ n v t, e = .gauge n v t) ∨ ∃ m, e = .debugLog m := by
  intro attrs
  induction attrs with
  | nil => intro e he; cases he
  | cons a rest ih =>
    intro e he
    rw [metricsGo] at he
    cases hae : attrEffects otype r tags a with
    | error e2 => rw [hae] at he; cases he
    | ok es =>
      rw [hae] at he
      dsimp only at he
      rcases List.mem_append.mp he with h1 | h2
      · exact attrEffects_shapes otype r tags a es hae e h1
      · exact ih e h2

/-- The record loop only ever emits gauges and debug logs. -/
theorem processRecords_shapes (otype : String) :
    ∀ (l : List Rec), ∀ e ∈ (processRecords otype l).1,
      (∃ n v t, e = .gauge n v t) ∨ ∃ m, e = .debugLog m := by
  intro l
  induction l with
  | nil => intro e he; cases he
  | cons r rest ih =>
    intro e he
    rw [processRecords] at he
    cases hm : _get_metrics otype r with
    | mk es oe =>
      have hes : es = (metricsGo otype r (computeTags otype r) (ATTRIBUTES otype)).1 := by
        rw [_get_metrics] at hm
        exact (congrArg Prod.fst hm).symm
      cases oe with
      | some e2 =>
        rw [hm] at he
        dsimp only at he
        exact metricsGo_shapes otype r _ _ e (hes ▸ he)
      | none =>
        rw [hm] at he
        dsimp only at he
        rcases List.mem_append.mp he with h1 | h2
        · exact metricsGo_shapes otype r _ _ e (hes ▸ h1)
        · exact ih e h2

/-- No warning line comes out of the record loop. -/
theorem processRecords_no_warning (otype : String) (l : List Rec) (m : String) :
    Effect.warning m ∉ (processRecords otype l).1 := by
  intro h
  rcases processRecords_shapes otype l _ h with ⟨n, v, t, he⟩ | ⟨mm, he⟩ <;> cases he

/-- No alert-call marker comes out of the record loop. -/
theorem processRecords_no_alertCall (otype : String) (l : List Rec)
    (b o : String) (s m : ℕ) :
    Effect.alertCall b o s m ∉ (processRecords otype l).1 := by
  intro h
  rcases processRecords_shapes otype l _ h with ⟨n, v, t, he⟩ | ⟨mm, he⟩ <;> cases he

/-- The alert helper only ever posts events. -/
theorem alert_snd_shapes (st : CheckState) (b : String) (maxd size : ℕ) (t : String) :
    ∀ e ∈ (alert st b maxd size t).2, ∃ ev, e = .event ev := by
  intro e he
  rw [alert] at he
  split at he
  · cases he
  · rcases List.mem_singleton.mp he with rfl
    exact ⟨_, rfl⟩

/-- No warning line comes out of the alert helper. -/
theorem alert_no_warning (st : CheckState) (b : String) (maxd size : ℕ) (t m : String) :
    Effect.warning m ∉ (alert st b maxd size t).2 := by
  intro h
  rcases alert_snd_shapes st b maxd size t _ h with ⟨ev, he⟩
  cases he

/-- No alert-call marker comes out of the alert helper. -/
theorem alert_no_alertCall (st : CheckState) (b : String) (maxd size : ℕ) (t : String)
    (b2 o2 : String) (s2 m2 : ℕ) :
    Effect.alertCall b2 o2 s2 m2 ∉ (alert st b maxd size t).2 := by
  intro h
  rcases alert_snd_shapes st b maxd size t _ h with ⟨ev, he⟩
  cases he

/-- C3: after filtering, metrics are extracted from at most
`max_detailed` records, taken in the API's list order; the
too-many-records warning is in the trace exactly when the filtered
count exceeds the maximum; the dedup alert is invoked exactly when the
filtered count exceeds 90% of the maximum (the exact-rational reading
of `len(data) > 0.9 * max_detailed`); and in that case, for a key not
yet alerted, the warning event itself is posted. -/
theorem c3_truncation_and_alert (net : Net) (rs : ReSearch) (tf : Bool) (st : CheckState)
    (base otype : String) (maxd : ℕ) (filters : FilterSpec) (body : Json)
    (data0 data : List Rec) (consumed : List MatchKind)
    (hfetch : net (urljoin base otype) = .ok body)
    (hlen : ¬ filters.explicit.length > maxd)
    (hrecs : toRecs body = .ok data0)
    (hfil : filterPhase rs tf otype data0 filters.explicit filters.regexes
        = .ok (data, consumed)) :
    (get_stats net rs tf st base otype maxd filters).filteredData = data ∧
    (get_stats net rs tf st base otype maxd filters).processed = data.take maxd ∧
    (Effect.warning (tooManyMsg otype) ∈ (get_stats net rs tf st base otype maxd filters).trace
      ↔ data.length > maxd) ∧
    (Effect.alertCall base otype data.length maxd
        ∈ (get_stats net rs tf st base otype maxd filters).trace
      ↔ 10 * data.length > 9 * maxd) ∧
    (10 * data.length > 9 * maxd → alertKey base otype ∉ st.already_alerted →
      Effect.event (alertEvent st.hostname base otype data.length maxd)
        ∈ (get_stats net rs tf st base otype maxd filters).trace) := by
  simp only [get_stats, get_statsCore, hfetch, if_neg hlen, hrecs, hfil]
  refine ⟨trivial, trivial, ?_, ?_, ?_⟩
  · by_cases h9 : 10 * data.length > 9 * maxd <;>
      by_cases hmax : data.length > maxd <;>
        simp [h9, hmax, List.mem_append, alert_no_warning, processRecords_no_warning]
  · by_cases h9 : 10 * data.length > 9 * maxd <;>
      by_cases hmax : data.length > maxd <;>
        simp [h9, hmax, List.mem_append, alert_no_alertCall, processRecords_no_alertCall]
  · intro h9 hfresh
    simp only [if_pos h9]
    have halert : (alert st base maxd data.length otype).2
        = [.event (alertEvent st.hostname base otype data.length maxd)] := by
      rw [alert]
      rw [if_neg (by simpa [List.elem_iff] using hfresh)]
    simp [halert]

/-- A network returning 95 bare queue records, for the spec's
95-of-100 scenario. -/
def net95 : Net := fun _ => .ok (.arr (List.replicate 95 (.obj [("name", Json.str "q")])))

/-- The 95 fetched records of that scenario. -/
def data95 : List Rec := List.replicate 95 [("name", Json.str "q")]

set_option maxRecDepth 8000 in
/-- Witness for C3 at the spec's scenario: 95 queue records, maximum
100, no filters — all 95 are processed in order, and since 95 > 90 the
alert event is posted for the fresh `(base_url, "queues")` key. -/
theorem c3_witness :
    net95 (urljoin "http://h/api/" QUEUE_TYPE)
        = .ok (.arr (List.replicate 95 (.obj [("name", Json.str "q")]))) ∧
    toRecs (.arr (List.replicate 95 (.obj [("name", Json.str "q")]))) = .ok data95 ∧
    (get_stats net95 rsNone false stFresh "http://h/api/" QUEUE_TYPE 100
        ⟨[], []⟩).processed = data95.take 100 ∧
    Effect.event (alertEvent stFresh.hostname "http://h/api/" QUEUE_TYPE data95.length 100)
      ∈ (get_stats net95 rsNone false stFresh "http://h/api/" QUEUE_TYPE 100 ⟨[], []⟩).trace :=
  ⟨rfl, rfl,
   (c3_truncation_and_alert net95 rsNone false stFresh "http://h/api/" QUEUE_TYPE 100 ⟨[], []⟩
      (.arr (List.replicate 95 (.obj [("name", Json.str "q")]))) data95 data95 []
      rfl (by decide) rfl rfl).2.1,
   (c3_truncation_and_alert net95 rsNone false stFresh "http://h/api/" QUEUE_TYPE 100 ⟨[], []⟩
      (.arr (List.replicate 95 (.obj [("name", Json.str "q")]))) data95 data95 []
      rfl (by decide) rfl rfl).2.2.2.2 (by decide) (by decide)⟩

/-!  C2. -/

/-- The explicit entry consumed by one (possibly) kept record, as a
zero- or one-element list. -/
def consumedOf (o : Option (Rec × MatchKind)) : List String :=
  match o with
  | some (_, k) => (consumedName k).toList
  | none => []

/-- Removing a contained entry moves exactly one occurrence out of the
list. -/
theorem count_erase_of_contains (l : List String) (s e : String)
    (h : l.contains s = true) :
    ([s].count e) + (l.erase s).count e = l.count e := by
  have hmem : s ∈ l := by simpa [List.elem_iff] using h
  by_cases hse : s = e
  · subst hse
    have hpos : 0 < l.count s := List.count_pos_iff.mpr hmem
    rw [List.count_erase_self]
    simp
    omega
  · have h0 : List.count e [s] = 0 := by
      simp only [List.count_singleton', beq_iff_eq, ite_eq_right_iff]
      intro h2
      exact absurd h2 hse
    rw [List.count_erase_of_ne (fun he => hse he.symm)]
    omega

/-- Occurrence bookkeeping for the absolute-name step: a consumed
entry leaves the working list, nothing else changes it. -/
theorem stepAbs_count (rs : ReSearch) (tf : Bool) (explicit regexes : List String)
    (r : Rec) (an e : String) :
    (consumedOf (stepAbs rs tf explicit regexes r an).1).count e
      + (stepAbs rs tf explicit regexes r an).2.count e = explicit.count e := by
  rw [stepAbs]
  split
  · rename_i hc
    simp only [consumedOf, consumedName, Option.toList]
    exact count_erase_of_contains explicit an e hc
  · split <;> simp [consumedOf, consumedName]

/-- Occurrence bookkeeping for the post-explicit step. -/
theorem stepAfterExplicit_count (rs : ReSearch) (tf : Bool) (otype : String)
    (explicit regexes : List String) (r : Rec) (nv : Json)
    (pr : Option (Rec × MatchKind) × List String) (e : String)
    (h : stepAfterExplicit rs tf otype explicit regexes r nv = .ok pr) :
    (consumedOf pr.1).count e + pr.2.count e = explicit.count e := by
  rw [stepAfterExplicit] at h
  cases hrl : regexLoop rs regexes nv with
  | error e2 => rw [hrl] at h; cases h
  | ok o =>
    rw [hrl] at h
    cases o with
    | some pg =>
      cases h
      simp [consumedOf, consumedName]
    | none =>
      dsimp only at h
      split at h
      · cases h
        simp [consumedOf]
      · cases h
        exact stepAbs_count rs tf explicit regexes r _ e

/-- Occurrence bookkeeping for one whole filtering step. -/
theorem filterStep_count (rs : ReSearch) (tf : Bool) (otype : String)
    (explicit regexes : List String) (r : Rec)
    (pr : Option (Rec × MatchKind) × List String) (e : String)
    (h : filterStep rs tf otype explicit regexes r = .ok pr) :
    (consumedOf pr.1).count e + pr.2.count e = explicit.count e := by
  rw [filterStep] at h
  cases hs : strOf? ((r.lookup "name").getD .null) with
  | some s =>
    rw [hs] at h
    dsimp only at h
    split at h
    · rename_i hc
      cases h
      simp only [consumedOf, consumedName, Option.toList]
      exact count_erase_of_contains explicit s e hc
    · exact stepAfterExplicit_count rs tf otype explicit regexes r _ pr e h
  | none =>
    rw [hs] at h
    exact stepAfterExplicit_count rs tf otype explicit regexes r _ pr e h

/-- The consumed-entry extraction distributes over a step's
contribution to the kept list. -/
theorem consumedNames_cons (okept : Option (Rec × MatchKind))
    (kept2 : List (Rec × MatchKind)) :
    consumedNames ((okept.toList ++ kept2).map Prod.snd)
      = consumedOf okept ++ consumedNames (kept2.map Prod.snd) := by
  cases okept with
  | none => simp [consumedNames, consumedOf]
  | some rk =>
    obtain ⟨rr, k⟩ := rk
    cases k <;> simp [consumedNames, consumedOf, consumedName, List.filterMap_cons]

/-- Occurrence bookkeeping over a whole filtering pass: consumed
occurrences of an entry plus the occurrences left in the working list
equal its occurrences in the configured explicit list. -/
theorem filterRecords_count (rs : ReSearch) (tf : Bool) (otype : String) :
    ∀ (data : List Rec) (explicit regexes : List String) (out : FilterOut) (e : String),
    filterRecords rs tf otype data explicit regexes = .ok out →
    (consumedNames (out.kept.map Prod.snd)).count e + out.remaining.count e
      = explicit.count e := by
  intro data
  induction data with
  | nil =>
    intro explicit regexes out e h
    rw [filterRecords] at h
    cases h
    simp [consumedNames]
  | cons d rest ih =>
    intro explicit regexes out e h
    rw [filterRecords] at h
    cases hstep : filterStep rs tf otype explicit regexes d with
    | error e2 => rw [hstep] at h; cases h
    | ok pr =>
      obtain ⟨okept, explicit2⟩ := pr
      simp only [hstep] at h
      cases hrec : filterRecords rs tf otype rest explicit2 regexes with
      | error e2 => simp only [hrec] at h; cases h
      | ok out2 =>
        simp only [hrec] at h
        cases h
        have hstep' := filterStep_count rs tf otype explicit regexes d (okept, explicit2) e hstep
        have hrec' := ih explicit2 regexes out2 e hrec
        simp only [consumedNames_cons, List.count_append]
        dsimp only at hstep'
        omega

/-- The working explicit list only ever shrinks. -/
theorem filterRecords_remaining_le (rs : ReSearch) (tf : Bool) (otype : String)
    (data : List Rec) (explicit regexes : List String) (out : FilterOut) (e : String)
    (h : filterRecords rs tf otype data explicit regexes = .ok out) :
    out.remaining.count e ≤ explicit.count e := by
  have := filterRecords_count rs tf otype data explicit regexes out e h
  omega

/-- A record named exactly like an explicit entry forces one occurrence
of that entry out of the working list by the end of the pass. -/
theorem filterRecords_named (rs : ReSearch) (tf : Bool) (otype : String) :
    ∀ (data : List Rec) (explicit regexes : List String) (out : FilterOut) (e : String),
    filterRecords rs tf otype data explicit regexes = .ok out →
    (∃ r ∈ data, r.lookup "name" = some (.str e)) →
    out.remaining.count e ≤ explicit.count e - 1 := by
  intro data
  induction data with
  | nil =>
    intro _ _ _ _ _ hbad
    obtain ⟨r, hr, _⟩ := hbad
    cases hr
  | cons d rest ih =>
    intro explicit regexes out e h hbad
    rw [filterRecords] at h
    cases hstep : filterStep rs tf otype explicit regexes d with
    | error e2 => rw [hstep] at h; cases h
    | ok pr =>
      obtain ⟨okept, explicit2⟩ := pr
      simp only [hstep] at h
      cases hrec : filterRecords rs tf otype rest explicit2 regexes with
      | error e2 => simp only [hrec] at h; cases h
      | ok out2 =>
        simp only [hrec] at h
        cases h
        dsimp only
        have hs2 : explicit2.count e ≤ explicit.count e := by
          have := filterStep_count rs tf otype explicit regexes d (okept, explicit2) e hstep
          dsimp only at this
          omega
        obtain ⟨r, hr, hname⟩ := hbad
        rcases List.mem_cons.mp hr with rfl | hr2
        · by_cases hc : explicit.count e = 0
          · have hle := filterRecords_remaining_le rs tf otype rest explicit2 regexes out2 e hrec
            omega
          · have hmem : e ∈ explicit := by
              have : 0 < explicit.count e := by omega
              exact List.count_pos_iff.mp this
            have hcont : explicit.contains e = true := by
              simpa [List.elem_iff] using hmem
            have hnv : (r.lookup "name").getD .null = .str e := by rw [hname]; rfl
            have hstep2 : filterStep rs tf otype explicit regexes r
                = .ok (some (r, .explicitName e), explicit.erase e) := by
              rw [filterStep, hnv]
              dsimp only [strOf?]
              simp [hcont, hmem]
            rw [hstep2] at hstep
            simp only [Except.ok.injEq, Prod.mk.injEq] at hstep
            obtain ⟨-, h2⟩ := hstep
            have hle := filterRecords_remaining_le rs tf otype rest explicit2 regexes out2 e hrec
            rw [← h2] at hle
            have := List.count_erase_self e explicit
            omega
        · have hle := ih explicit2 regexes out2 e hrec ⟨r, hr2, hname⟩
          omega

/-- C2: during one filtering pass, explicit entries are depleted as
they are consumed — consumed occurrences plus leftover occurrences
account exactly for the configured occurrences; an entry configured
once is consumed at most once; and if some record's `name` equals that
entry, exactly one record is kept through it. -/
theorem c2_explicit_consumed_once (rs : ReSearch) (tf : Bool) (otype : String)
    (data : List Rec) (explicit regexes : List String) (out : FilterOut) (e : String)
    (hrun : filterRecords rs tf otype data explicit regexes = .ok out) :
    ((consumedNames (out.kept.map Prod.snd)).count e + out.remaining.count e
        = explicit.count e) ∧
    (explicit.count e = 1 → (consumedNames (out.kept.map Prod.snd)).count e ≤ 1) ∧
    (explicit.count e = 1 → (∃ r ∈ data, r.lookup "name" = some (.str e)) →
      (consumedNames (out.kept.map Prod.snd)).count e = 1) := by
  have h1 := filterRecords_count rs tf otype data explicit regexes out e hrun
  refine ⟨h1, fun hone => by omega, fun hone hbad => ?_⟩
  have h2 := filterRecords_named rs tf otype data explicit regexes out e hrun hbad
  omega

/-- Witness for C2: two records named `a` against the explicit list
`["a"]` — exactly one is kept through the entry. -/
theorem c2_witness :
    filterRecords rsNone false QUEUE_TYPE
        [[("name", Json.str "a")], [("name", Json.str "a")]] ["a"] []
      = .ok ⟨[([("name", Json.str "a")], .explicitName "a")], []⟩ ∧
    (consumedNames ((FilterOut.mk [([("name", Json.str "a")], .explicitName "a")] []).kept.map
        Prod.snd)).count "a" = 1 :=
  ⟨rfl,
   (c2_explicit_consumed_once rsNone false QUEUE_TYPE
      [[("name", Json.str "a")], [("name", Json.str "a")]] ["a"] []
      ⟨[([("name", Json.str "a")], .explicitName "a")], []⟩ "a" rfl).2.2 (by decide)
      ⟨[("name", Json.str "a")], List.mem_cons_self _ _, rfl⟩⟩

/-!  C8. -/

/-- A failed fetch makes `get_stats` return immediately with the
`RabbitMQException` and only the fetch in its trace. -/
theorem get_stats_fetch_error (net : Net) (rs : ReSearch) (tf : Bool) (st : CheckState)
    (base otype : String) (maxd : ℕ) (filters : FilterSpec) (e : String)
    (h : net (urljoin base otype) = .error e) :
    get_stats net rs tf st base otype maxd filters =
      { trace := [.fetch (urljoin base otype)], state := st,
        exc := some (.rabbitExc (fetchErrMsg (urljoin base otype) e)),
        filteredData := [], consumed := [], processed := [],
        callerFilters := filters } := by
  simp only [get_stats, get_statsCore, h]

/-- A network failing exactly on the queues endpoint of the fixture
base URL. -/
def netQFail : Net := fun u =>
  if u = "http://host/api/queues" then .error "boom" else .ok (.arr [])

/-- C8: the claim says a fetch failure short-circuits "only the
remaining steps within the current metric group".  In the code the
exception from the queue group propagates to the single handler in
`check`, so the node group and the aliveness check are skipped
entirely: with a failing queues endpoint neither the nodes endpoint
nor the aliveness endpoint is ever fetched, while the critical
`rabbitmq.status` service check is emitted and nothing escapes. -/
theorem c8_counterexample :
    (check netQFail rsNone false (some ["v1"]) stFresh "http://host/api/" 3 3
        ⟨[], []⟩ ⟨[], []⟩).exc = none ∧
    Effect.serviceCheck "rabbitmq.status" .CRITICAL []
        (criticalMsg (fetchErrMsg "http://host/api/queues" "boom"))
      ∈ (check netQFail rsNone false (some ["v1"]) stFresh "http://host/api/" 3 3
          ⟨[], []⟩ ⟨[], []⟩).trace ∧
    Effect.fetch "http://host/api/nodes" ∉
      (check netQFail rsNone false (some ["v1"]) stFresh "http://host/api/" 3 3
          ⟨[], []⟩ ⟨[], []⟩).trace ∧
    Effect.fetch (alivenessUrl "http://host/api/" "v1") ∉
      (check netQFail rsNone false (some ["v1"]) stFresh "http://host/api/" 3 3
          ⟨[], []⟩ ⟨[], []⟩).trace := by
  refine ⟨by decide, by decide, by decide, by decide⟩

/-- C8 (amended): wherever during one invocation a fetch/parse failure
surfaces (its `RabbitMQException` is the only way a step ends with a
`rabbitExc`: the queue step, the node step, or the aliveness step —
the latter covering both the vhosts-list fetch and every per-vhost
aliveness fetch), the failing step's exception short-circuits every
later step of the invocation, is reported through the critical
`rabbitmq.status` service check with the descriptive message, and is
not raised to the scheduler (`exc = none`); the trace equalities show
nothing from any skipped step is emitted.  When all three steps
succeed, the trace is their concatenation followed by the OK
`rabbitmq.status` service check.  The final conjunct shows the
short-circuit inside the aliveness step itself: a failing per-vhost
fetch ends the loop at once, skipping the remaining vhosts. -/
theorem c8_failure_reporting (net : Net) (rs : ReSearch) (tf : Bool)
    (vhosts : Option (List String)) (st : CheckState) (base : String) (maxq maxn : ℕ)
    (qf nf : FilterSpec) :
    (∀ m, (get_stats net rs tf st base QUEUE_TYPE maxq qf).exc = some (.rabbitExc m) →
      check net rs tf vhosts st base maxq maxn qf nf =
        { trace := (get_stats net rs tf st base QUEUE_TYPE maxq qf).trace
            ++ criticalEffects m,
          state := (get_stats net rs tf st base QUEUE_TYPE maxq qf).state, exc := none }) ∧
    ((get_stats net rs tf st base QUEUE_TYPE maxq qf).exc = none →
     ∀ m, (get_stats net rs tf (get_stats net rs tf st base QUEUE_TYPE maxq qf).state
        base NODE_TYPE maxn nf).exc = some (.rabbitExc m) →
      check net rs tf vhosts st base maxq maxn qf nf =
        { trace := (get_stats net rs tf st base QUEUE_TYPE maxq qf).trace
            ++ (get_stats net rs tf (get_stats net rs tf st base QUEUE_TYPE maxq qf).state
                base NODE_TYPE maxn nf).trace
            ++ criticalEffects m,
          state := (get_stats net rs tf (get_stats net rs tf st base QUEUE_TYPE maxq qf).state
              base NODE_TYPE maxn nf).state,
          exc := none }) ∧
    ((get_stats net rs tf st base QUEUE_TYPE maxq qf).exc = none →
     (get_stats net rs tf (get_stats net rs tf st base QUEUE_TYPE maxq qf).state
        base NODE_TYPE maxn nf).exc = none →
     ∀ m, (_check_aliveness net (get_stats net rs tf
          (get_stats net rs tf st base QUEUE_TYPE maxq qf).state
          base NODE_TYPE maxn nf).state base vhosts).exc = some (.rabbitExc m) →
      check net rs tf vhosts st base maxq maxn qf nf =
        { trace := (get_stats net rs tf st base QUEUE_TYPE maxq qf).trace
            ++ (get_stats net rs tf (get_stats net rs tf st base QUEUE_TYPE maxq qf).state
                base NODE_TYPE maxn nf).trace
            ++ (_check_aliveness net (get_stats net rs tf
                (get_stats net rs tf st base QUEUE_TYPE maxq qf).state
                base NODE_TYPE maxn nf).state base vhosts).trace
            ++ criticalEffects m,
          state := (_check_aliveness net (get_stats net rs tf
              (get_stats net rs tf st base QUEUE_TYPE maxq qf).state
              base NODE_TYPE maxn nf).state base vhosts).state,
          exc := none }) ∧
    ((get_stats net rs tf st base QUEUE_TYPE maxq qf).exc = none →
     (get_stats net rs tf (get_stats net rs tf st base QUEUE_TYPE maxq qf).state
        base NODE_TYPE maxn nf).exc = none →
     (_check_aliveness net (get_stats net rs tf
          (get_stats net rs tf st base QUEUE_TYPE maxq qf).state
          base NODE_TYPE maxn nf).state base vhosts).exc = none →
      (check net rs tf vhosts st base maxq maxn qf nf).exc = none ∧
      (check net rs tf vhosts st base maxq maxn qf nf).trace
        = (get_stats net rs tf st base QUEUE_TYPE maxq qf).trace
          ++ ((get_stats net rs tf (get_stats net rs tf st base QUEUE_TYPE maxq qf).state
                base NODE_TYPE maxn nf).trace
          ++ ((_check_aliveness net (get_stats net rs tf
                (get_stats net rs tf st base QUEUE_TYPE maxq qf).state
                base NODE_TYPE maxn nf).state base vhosts).trace
          ++ [.serviceCheck "rabbitmq.status" .OK [] ""]))) ∧
    (∀ (st2 : CheckState) (v : String) (vs : List String) (e : String),
      net (alivenessUrl base v) = .error e →
      alivenessLoop net st2 base (v :: vs) =
        { trace := [.fetch (alivenessUrl base v)], state := st2,
          exc := some (.rabbitExc (fetchErrMsg (alivenessUrl base v) e)) }) := by
  refine ⟨?_, ?_, ?_, ?_, ?_⟩
  · intro m h1
    rw [check]
    rw [h1]
  · intro h1 m h2
    rw [check]
    cases hx1 : (get_stats net rs tf st base QUEUE_TYPE maxq qf).exc with
    | some e => rw [hx1] at h1; cases h1
    | none =>
      dsimp only
      rw [h2]
  · intro h1 h2 m h3
    rw [check]
    cases hx1 : (get_stats net rs tf st base QUEUE_TYPE maxq qf).exc with
    | some e => rw [hx1] at h1; cases h1
    | none =>
      dsimp only
      cases hx2 : (get_stats net rs tf (get_stats net rs tf st base QUEUE_TYPE maxq qf).state
          base NODE_TYPE maxn nf).exc with
      | some e => rw [hx2] at h2; cases h2
      | none =>
        dsimp only
        rw [h3]
  · intro h1 h2 h3
    rw [check]
    cases hx1 : (get_stats net rs tf st base QUEUE_TYPE maxq qf).exc with
    | some e => rw [hx1] at h1; cases h1
    | none =>
      dsimp only
      cases hx2 : (get_stats net rs tf (get_stats net rs tf st base QUEUE_TYPE maxq qf).state
          base NODE_TYPE maxn nf).exc with
      | some e => rw [hx2] at h2; cases h2
      | none =>
        dsimp only
        cases hx3 : (_check_aliveness net (get_stats net rs tf
            (get_stats net rs tf st base QUEUE_TYPE maxq qf).state
            base NODE_TYPE maxn nf).state base vhosts).exc with
        | some e => rw [hx3] at h3; cases h3
        | none => exact ⟨rfl, by simp⟩
  · intro st2 v vs e he
    rw [alivenessLoop, he]

/-- A network failing exactly on the nodes endpoint of the fixture
base URL. -/
def netNFail : Net := fun u =>
  if u = "http://host/api/nodes" then .error "nodes down" else .ok (.arr [])

/-- A network failing exactly on the aliveness endpoint of vhost `v1`
under the fixture base URL. -/
def netAlFail : Net := fun u =>
  if u = alivenessUrl "http://host/api/" "v1" then .error "down" else .ok (.arr [])

/-- Witness for C8 at concrete inputs, one per failure site: a failing
queues fetch, a failing nodes fetch, and a failing per-vhost aliveness
fetch are each reported and swallowed (`exc = none`); an all-green run
also ends with no escaping exception; and the failing aliveness fetch
for `v1` skips the remaining vhost `v2`. -/
theorem c8_witness :
    (get_stats netQFail rsNone false stFresh "http://host/api/" QUEUE_TYPE 3 ⟨[], []⟩).exc
        = some (.rabbitExc (fetchErrMsg "http://host/api/queues" "boom")) ∧
    check netQFail rsNone false (some ["v1"]) stFresh "http://host/api/" 3 3 ⟨[], []⟩ ⟨[], []⟩
      = { trace := (get_stats netQFail rsNone false stFresh "http://host/api/" QUEUE_TYPE 3
              ⟨[], []⟩).trace
            ++ criticalEffects (fetchErrMsg "http://host/api/queues" "boom"),
          state := (get_stats netQFail rsNone false stFresh "http://host/api/" QUEUE_TYPE 3
              ⟨[], []⟩).state,
          exc := none } ∧
    (check netNFail rsNone false (some ["v1"]) stFresh "http://host/api/" 3 3
        ⟨[], []⟩ ⟨[], []⟩).exc = none ∧
    (check netAlFail rsNone false (some ["v1", "v2"]) stFresh "http://host/api/" 3 3
        ⟨[], []⟩ ⟨[], []⟩).exc = none ∧
    (check netEmpty rsNone false none stFresh "http://host/api/" 3 3
        ⟨[], []⟩ ⟨[], []⟩).exc = none ∧
    alivenessLoop netAlFail stFresh "http://host/api/" ["v1", "v2"]
      = { trace := [.fetch (alivenessUrl "http://host/api/" "v1")], state := stFresh,
          exc := some (.rabbitExc (fetchErrMsg (alivenessUrl "http://host/api/" "v1")
            "down")) } :=
  ⟨rfl,
   (c8_failure_reporting netQFail rsNone false (some ["v1"]) stFresh "http://host/api/" 3 3
      ⟨[], []⟩ ⟨[], []⟩).1 (fetchErrMsg "http://host/api/queues" "boom") rfl,
   congrArg StepResult.exc
     ((c8_failure_reporting netNFail rsNone false (some ["v1"]) stFresh "http://host/api/" 3 3
        ⟨[], []⟩ ⟨[], []⟩).2.1 rfl (fetchErrMsg "http://host/api/nodes" "nodes down") rfl),
   congrArg StepResult.exc
     ((c8_failure_reporting netAlFail rsNone false (some ["v1", "v2"]) stFresh
        "http://host/api/" 3 3 ⟨[], []⟩ ⟨[], []⟩).2.2.1 rfl rfl
        (fetchErrMsg (alivenessUrl "http://host/api/" "v1") "down") rfl),
   ((c8_failure_reporting netEmpty rsNone false none stFresh "http://host/api/" 3 3
      ⟨[], []⟩ ⟨[], []⟩).2.2.2.1 rfl rfl rfl).1,
   (c8_failure_reporting netAlFail rsNone false (some ["v1", "v2"]) stFresh "http://host/api/"
      3 3 ⟨[], []⟩ ⟨[], []⟩).2.2.2.2 stFresh "v1" ["v2"] "down" rfl⟩

end RMQ
